import Mathlib

/-!
Shallow embedding of the cache-aside logistics lookup subsystem of
sparkdoaz/logistics_SRE (src/main.go): the relational assembler
`getPackageDetailsInDB`, the cache writer `setLogisticsInfoInCache`, the
orchestrator `get`, and the HTTP-level guard of `queryLogisticsHandler`.
Machine integers are modelled as `Int`; Go `time.Duration` values are
nanosecond counts.
-/

/-- Modelled from the spec: the struct declarations of `TrackingDetail`,
`Recipient`, `Location` and `PackageDetails` live in a repository file that
is not under src/; field names and types follow their uses in src/main.go
(rows scanned in `getPackageDetailsInDB`) and the data model of the spec.
A tracking event row: id, date, time, status, location reference. -/
structure TrackingDetail where
  ID : Int
  Date : Int
  Time : Int
  Status : String
  LocationID : Int
  deriving DecidableEq, Repr

/-- Modelled from the spec: the recipient row (id, name, address, phone). -/
structure Recipient where
  ID : Int
  Name : String
  Address : String
  Phone : String
  deriving DecidableEq, Repr

/-- Modelled from the spec: a location row (id, title, city, address). -/
structure Location where
  LocationID : Int
  Title : String
  City : String
  Address : String
  deriving DecidableEq, Repr

/-- Modelled from the spec: the aggregate package record assembled by
`getPackageDetailsInDB` and cached as JSON. -/
structure PackageDetails where
  Sno : String
  TrackingStatus : String
  EstimatedDelivery : String
  Details : List TrackingDetail
  recipient : Recipient
  CurrentLocation : Location
  deriving DecidableEq, Repr

/-- The Go zero value of `Recipient` (var declaration zero-initializes). -/
def Recipient.zero : Recipient := ⟨0, "", "", ""⟩

/-- The Go zero value of `Location`. -/
def Location.zero : Location := ⟨0, "", "", ""⟩

/-- The Go zero value of `PackageDetails`, i.e. `var pd PackageDetails`. -/
def PackageDetails.zero : PackageDetails :=
  ⟨"", "", "", [], Recipient.zero, Location.zero⟩

/-- Error taxonomy of the relational assembler: `notFound` stands for
`sql.ErrNoRows` (absent row), `transient` for any driver connectivity
failure. -/
inductive DBErr where
  | notFound
  | transient
  deriving DecidableEq, Repr

/-- The four relational reads `getPackageDetailsInDB` can issue, in source
order. -/
inductive ReadOp where
  | base
  | events
  | recipientRead
  | location
  deriving DecidableEq, Repr

/-- The relational store: the four tables consumed by src/main.go, plus one
connectivity-failure flag per read site (a failed call surfaces a driver
error, which the taxonomy classifies as transient). -/
structure DB where
  packages : String → Option (String × String)
  trackingDetails : String → List TrackingDetail
  recipients : String → Option Recipient
  locations : Int → Option Location
  failBase : Bool
  failEvents : Bool
  failRecipient : Bool
  failLocation : Bool

/-- Whether tracking event `b` sorts strictly after `a` under
`ORDER BY date DESC, time DESC`: later date, or same date and later time. -/
def evLater (a b : TrackingDetail) : Bool :=
  a.Date < b.Date || (a.Date = b.Date && a.Time < b.Time)

/-- The row produced by
`SELECT location_id FROM TrackingDetails WHERE sno = $1 ORDER BY date DESC, time DESC LIMIT 1`:
the first event of the read order whose (date, time) is maximal; `none` on an
empty event set (the subquery yields no row, so the outer lookup misses). -/
def latestEvent : List TrackingDetail → Option TrackingDetail
  | [] => none
  | h :: t => some (t.foldl (fun a b => if evLater a b then b else a) h)

/-- Embedding of `getPackageDetailsInDB` (src/main.go:558-611), instrumented
with the list of reads actually issued. The record component reproduces the
Go behavior of returning the partially populated `pd` together with the
error: each successful read fills more fields of `pd` before the next read
can fail. -/
def getPackageDetailsInDB (db : DB) (sno : String) :
    PackageDetails × Option DBErr × List ReadOp :=
  let pd0 := PackageDetails.zero
  if db.failBase then (pd0, some .transient, [.base])
  else
    match db.packages sno with
    | none => (pd0, some .notFound, [.base])
    | some (st, ed) =>
      let pd1 :=
        { pd0 with Sno := sno, TrackingStatus := st, EstimatedDelivery := ed }
      if db.failEvents then (pd1, some .transient, [.base, .events])
      else
        let pd2 := { pd1 with Details := db.trackingDetails sno }
        if db.failRecipient then
          (pd2, some .transient, [.base, .events, .recipientRead])
        else
          match db.recipients sno with
          | none => (pd2, some .notFound, [.base, .events, .recipientRead])
          | some rc =>
            let pd3 := { pd2 with recipient := rc }
            if db.failLocation then
              (pd3, some .transient,
                [.base, .events, .recipientRead, .location])
            else
              match latestEvent (db.trackingDetails sno) with
              | none =>
                (pd3, some .notFound,
                  [.base, .events, .recipientRead, .location])
              | some td =>
                match db.locations td.LocationID with
                | none =>
                  (pd3, some .notFound,
                    [.base, .events, .recipientRead, .location])
                | some loc =>
                  ({ pd3 with CurrentLocation := loc }, none,
                    [.base, .events, .recipientRead, .location])

/-! JSON wire format of the cache.

Modelled from the spec: `json.Marshal` / `json.Unmarshal` and the struct
declarations they serialize are library or repository code outside src/;
the spec fixes the wire format as the JSON encoding of PackageRecord. JSON
documents are modelled as an abstract syntax tree `JValue`; encoding maps
each exported struct field to an object member named after the field. -/

/-- A JSON document. -/
inductive JValue where
  | jnull
  | jbool (b : Bool)
  | jnum (n : Int)
  | jstr (s : String)
  | jarr (elems : List JValue)
  | jobj (fields : List (String × JValue))

/-- Association-list lookup used for JSON object members and cache fields. -/
def lookupKV {α : Type} (k : String) : List (String × α) → Option α
  | [] => none
  | (k', v) :: t => if k' = k then some v else lookupKV k t

/-- Insert-or-replace on an association list (Redis HSET on one field). -/
def insertKV {α : Type} (k : String) (v : α) :
    List (String × α) → List (String × α)
  | [] => [(k, v)]
  | (k', v') :: t =>
    if k' = k then (k, v) :: t else (k', v') :: insertKV k v t

/-- Read an Int out of a JSON number. -/
def JValue.asNum : JValue → Option Int
  | .jnum n => some n
  | _ => none

/-- Read a String out of a JSON string. -/
def JValue.asStr : JValue → Option String
  | .jstr s => some s
  | _ => none

/-- JSON encoding of one tracking event. -/
def encodeTrackingDetail (td : TrackingDetail) : JValue :=
  .jobj [("ID", .jnum td.ID), ("Date", .jnum td.Date), ("Time", .jnum td.Time),
    ("Status", .jstr td.Status), ("LocationID", .jnum td.LocationID)]

/-- JSON decoding of one tracking event. -/
def decodeTrackingDetail (v : JValue) : Option TrackingDetail :=
  match v with
  | .jobj fs =>
    (lookupKV "ID" fs).bind fun j1 => j1.asNum.bind fun i =>
    (lookupKV "Date" fs).bind fun j2 => j2.asNum.bind fun d =>
    (lookupKV "Time" fs).bind fun j3 => j3.asNum.bind fun t =>
    (lookupKV "Status" fs).bind fun j4 => j4.asStr.bind fun s =>
    (lookupKV "LocationID" fs).bind fun j5 => j5.asNum.bind fun l =>
    some ⟨i, d, t, s, l⟩
  | _ => none

/-- JSON encoding of the recipient. -/
def encodeRecipient (r : Recipient) : JValue :=
  .jobj [("ID", .jnum r.ID), ("Name", .jstr r.Name),
    ("Address", .jstr r.Address), ("Phone", .jstr r.Phone)]

/-- JSON decoding of the recipient. -/
def decodeRecipient (v : JValue) : Option Recipient :=
  match v with
  | .jobj fs =>
    (lookupKV "ID" fs).bind fun j1 => j1.asNum.bind fun i =>
    (lookupKV "Name" fs).bind fun j2 => j2.asStr.bind fun n =>
    (lookupKV "Address" fs).bind fun j3 => j3.asStr.bind fun a =>
    (lookupKV "Phone" fs).bind fun j4 => j4.asStr.bind fun p =>
    some ⟨i, n, a, p⟩
  | _ => none

/-- JSON encoding of a location. -/
def encodeLocation (l : Location) : JValue :=
  .jobj [("LocationID", .jnum l.LocationID), ("Title", .jstr l.Title),
    ("City", .jstr l.City), ("Address", .jstr l.Address)]

/-- JSON decoding of a location. -/
def decodeLocation (v : JValue) : Option Location :=
  match v with
  | .jobj fs =>
    (lookupKV "LocationID" fs).bind fun j1 => j1.asNum.bind fun i =>
    (lookupKV "Title" fs).bind fun j2 => j2.asStr.bind fun t =>
    (lookupKV "City" fs).bind fun j3 => j3.asStr.bind fun c =>
    (lookupKV "Address" fs).bind fun j4 => j4.asStr.bind fun a =>
    some ⟨i, t, c, a⟩
  | _ => none

/-- JSON encoding of the whole PackageDetails record, as `json.Marshal`
produces for the cache value. -/
def encodePackageDetails (pd : PackageDetails) : JValue :=
  .jobj [("Sno", .jstr pd.Sno), ("TrackingStatus", .jstr pd.TrackingStatus),
    ("EstimatedDelivery", .jstr pd.EstimatedDelivery),
    ("Details", .jarr (pd.Details.map encodeTrackingDetail)),
    ("Recipient", encodeRecipient pd.recipient),
    ("CurrentLocation", encodeLocation pd.CurrentLocation)]

/-- Elementwise JSON decoding of the tracking-event array. -/
def decodeTDList : List JValue → Option (List TrackingDetail)
  | [] => some []
  | v :: t =>
    (decodeTrackingDetail v).bind fun td =>
    (decodeTDList t).bind fun tds => some (td :: tds)

/-- JSON decoding of a cached PackageDetails value, as `json.Unmarshal`
performs on a cache hit; `none` is a deserialization failure. -/
def decodePackageDetails (v : JValue) : Option PackageDetails :=
  match v with
  | .jobj fs =>
    (lookupKV "Sno" fs).bind fun j1 => j1.asStr.bind fun sno =>
    (lookupKV "TrackingStatus" fs).bind fun j2 => j2.asStr.bind fun st =>
    (lookupKV "EstimatedDelivery" fs).bind fun j3 => j3.asStr.bind fun ed =>
    (lookupKV "Details" fs).bind fun j4 =>
    (match j4 with
     | .jarr xs => decodeTDList xs
     | _ => none).bind fun ds =>
    (lookupKV "Recipient" fs).bind fun j5 =>
    (decodeRecipient j5).bind fun rc =>
    (lookupKV "CurrentLocation" fs).bind fun j6 =>
    (decodeLocation j6).bind fun loc =>
    some ⟨sno, st, ed, ds, rc, loc⟩
  | _ => none

/-! Cache Store. -/

/-- A cache infrastructure failure (Redis connectivity). -/
inductive CacheErr where
  | connection
  deriving DecidableEq, Repr

/-- The Redis-side state relevant to the core: the one shared hash
`logistics_cache` as an association list of serialized records, the single
structure-wide expiry instant (Redis EXPIRE applies to the whole key), and
two fault-injection flags for read and write connectivity. -/
structure CacheState where
  entries : List (String × JValue)
  expiresAt : Option Int
  readFails : Bool
  writeFails : Bool

/-- Embedding of `client.HGet(ctx, "logistics_cache", sno)`: a connectivity
failure is an error, an expired or absent field is `redis.Nil` (modelled
`ok none`), otherwise the stored bytes. -/
def hget (c : CacheState) (now : Int) (k : String) :
    Except CacheErr (Option JValue) :=
  if c.readFails then .error .connection
  else
    match c.expiresAt with
    | some t => if t ≤ now then .ok none else .ok (lookupKV k c.entries)
    | none => .ok (lookupKV k c.entries)

/-- Go time.Duration constants in nanoseconds. -/
def timeNanosecond : Int := 1

/-- Go time.Second in nanoseconds. -/
def timeSecond : Int := 1000000000

/-- Go time.Minute in nanoseconds. -/
def timeMinute : Int := 60 * timeSecond

/-- Go time.Hour in nanoseconds. -/
def timeHour : Int := 60 * timeMinute

/-- The expiry duration passed to `client.Expire` in
`setLogisticsInfoInCache` (src/main.go:653): the Go expression
`time.Hour*2/60`, evaluated with Go's left-to-right integer duration
arithmetic. -/
def cacheExpiryDuration : Int := timeHour * 2 / 60

/-- Embedding of `setLogisticsInfoInCache` (src/main.go:644-654): marshal
(never fails on these field types), HSET the field for `sno` (its error is
discarded by the source), then EXPIRE the entire `logistics_cache` structure;
the returned error is the EXPIRE error. -/
def setLogisticsInfoInCache (c : CacheState) (now : Int) (sno : String)
    (pd : PackageDetails) : CacheState × Option CacheErr :=
  let data := encodePackageDetails pd
  let c1 :=
    if c.writeFails then c
    else { c with entries := insertKV sno data c.entries }
  if c.writeFails then (c1, some .connection)
  else ({ c1 with expiresAt := some (now + cacheExpiryDuration) }, none)

/-! Cache-Aside Orchestrator. -/

/-- The failure kinds `get` can return to its caller. Database assembly
errors never appear here: the source discards them on the miss path. -/
inductive GetErr where
  | cacheFailure (e : CacheErr)
  | serializationFailure
  deriving DecidableEq, Repr

namespace Logistics

/-- Embedding of `get` (src/main.go:613-641), instrumented with the
resulting cache state and whether the database was invoked. On a miss the
source reads the database discarding the error (`packageDetails, _ :=`),
best-effort writes the cache (the write error is only logged), and returns
the record with a nil error; on a hit it deserializes; any other cache
error is returned as-is. The definition lives in a namespace because the
bare source name collides with MonadState.get. -/
def get (c : CacheState) (db : DB) (sno : String) (now : Int) :
    Except GetErr PackageDetails × CacheState × Bool :=
  match hget c now sno with
  | .error e => (.error (.cacheFailure e), c, false)
  | .ok none =>
    let r := getPackageDetailsInDB db sno
    let cw := setLogisticsInfoInCache c now sno r.1
    (.ok r.1, cw.1, true)
  | .ok (some v) =>
    match decodePackageDetails v with
    | none => (.error .serializationFailure, c, false)
    | some pd => (.ok pd, c, false)

end Logistics

/-- The two response shapes of the handler: every error kind is collapsed
to the same 404 body, success carries the record. -/
inductive HandlerResp where
  | notFoundResp
  | success (pd : PackageDetails)
  deriving DecidableEq, Repr

/-- Embedding of the inner handler of `queryLogisticsHandler`
(src/main.go:505-556), instrumented with the resulting cache state, whether
any Cache Store operation ran, and whether the database was invoked. An
empty `sno` query parameter returns the 404 envelope before anything else
runs; both error branches of the source produce the identical 404 body. -/
def queryLogisticsHandler (c : CacheState) (db : DB) (sno : String)
    (now : Int) : HandlerResp × CacheState × Bool × Bool :=
  if sno = "" then (.notFoundResp, c, false, false)
  else
    let r := Logistics.get c db sno now
    match r.1 with
    | .error _ => (.notFoundResp, r.2.1, true, r.2.2)
    | .ok pd => (.success pd, r.2.1, true, r.2.2)

/-! Concrete fixtures used by witnesses and counterexamples. -/

/-- A store whose base package table is empty and whose connections are
healthy. -/
def dbEmptyNF : DB :=
  ⟨fun _ => none, fun _ => [], fun _ => none, fun _ => none,
    false, false, false, false⟩

/-- A store whose base-row read suffers a connectivity failure. -/
def dbFailBase : DB :=
  ⟨fun _ => none, fun _ => [], fun _ => none, fun _ => none,
    true, false, false, false⟩

/-- A store holding a base row for tracking number A but no recipient row:
assembly fails at the third read after partially filling the record. -/
def dbNoRecipient : DB :=
  ⟨fun s => if s = "A" then some ("in_transit", "2024-06-01") else none,
    fun _ => [], fun _ => none, fun _ => none,
    false, false, false, false⟩

/-- Two tracking events for number A; the second is chronologically later
and references location 7. -/
def dbGood : DB :=
  ⟨fun s => if s = "A" then some ("in_transit", "2024-06-01") else none,
    fun s => if s = "A" then
        [⟨1, 10, 5, "picked_up", 3⟩, ⟨2, 11, 2, "arrived", 7⟩] else [],
    fun s => if s = "A" then some ⟨9, "Ann", "1 Main St", "555"⟩ else none,
    fun i => if i = 7 then some ⟨7, "Hub", "Taipei", "2 Dock Rd"⟩ else
      if i = 3 then some ⟨3, "Origin", "Tainan", "3 Pier Rd"⟩ else none,
    false, false, false, false⟩

/-- An empty, healthy cache. -/
def cacheEmpty : CacheState := ⟨[], none, false, false⟩

/-- A cache whose read path suffers a connectivity failure. -/
def cacheReadFail : CacheState := ⟨[], none, true, false⟩

/-- A cache holding an undecodable payload under key A. -/
def cacheCorrupt : CacheState := ⟨[("A", JValue.jnull)], none, false, false⟩

/-- A cache holding a decodable record under key B, with an expiry already
set. -/
def cacheWithB : CacheState :=
  ⟨[("B", JValue.jstr "x")], some 5, false, false⟩

/-! Helper lemmas. -/

/-- The strict chronological order on tracking events as a proposition:
later date, or equal date and later time. -/
def evLT (a b : TrackingDetail) : Prop :=
  a.Date < b.Date ∨ (a.Date = b.Date ∧ a.Time < b.Time)

theorem evLater_iff_evLT (a b : TrackingDetail) :
    evLater a b = true ↔ evLT a b := by
  simp [evLater, evLT]

theorem evLT_irrefl (a : TrackingDetail) : ¬ evLT a a := by
  simp [evLT]

theorem evLT_of_not_evLT_of_evLT {h b r : TrackingDetail}
    (hnb : ¬ evLT h b) (hrb : evLT r b) : evLT r h := by
  simp only [evLT] at hnb hrb ⊢
  omega

theorem evLT_trans {r h b : TrackingDetail}
    (h1 : evLT r h) (h2 : evLT h b) : evLT r b := by
  simp only [evLT] at h1 h2 ⊢
  omega

theorem foldl_latest_mem (t : List TrackingDetail) :
    ∀ h : TrackingDetail,
      t.foldl (fun a b => if evLater a b then b else a) h ∈ h :: t := by
  induction t with
  | nil => intro h; simp
  | cons b t ih =>
    intro h
    simp only [List.foldl_cons]
    have hm := ih (if evLater h b then b else h)
    rcases List.mem_cons.mp hm with heq | hmem
    · rw [heq]
      by_cases hb : evLater h b
      · rw [if_pos hb]
        exact List.mem_cons.mpr (Or.inr (List.mem_cons_self b t))
      · rw [if_neg hb]
        exact List.mem_cons_self h (b :: t)
    · exact List.mem_cons.mpr
        (Or.inr (List.mem_cons.mpr (Or.inr hmem)))

theorem foldl_latest_max (t : List TrackingDetail) :
    ∀ h e : TrackingDetail, e ∈ h :: t →
      ¬ evLT (t.foldl (fun a b => if evLater a b then b else a) h) e := by
  induction t with
  | nil =>
    intro h e he
    rcases List.mem_cons.mp he with heq | hmem
    · rw [heq]
      exact evLT_irrefl h
    · exact absurd hmem (List.not_mem_nil e)
  | cons b t ih =>
    intro h e he
    simp only [List.foldl_cons]
    have hstep :
        ¬ evLT (t.foldl (fun a b => if evLater a b then b else a)
            (if evLater h b then b else h)) (if evLater h b then b else h) :=
      ih (if evLater h b then b else h) (if evLater h b then b else h)
        (List.mem_cons_self _ _)
    rcases List.mem_cons.mp he with heq | hmem
    · rw [heq]
      by_cases hb : evLater h b
      · rw [if_pos hb] at hstep ⊢
        intro hrh
        exact hstep (evLT_trans hrh ((evLater_iff_evLT h b).mp hb))
      · rw [if_neg hb] at hstep ⊢
        exact hstep
    · rcases List.mem_cons.mp hmem with heq2 | hmem2
      · rw [heq2]
        by_cases hb : evLater h b
        · rw [if_pos hb] at hstep ⊢
          exact hstep
        · rw [if_neg hb] at hstep ⊢
          have hnb : ¬ evLT h b := fun hc => hb ((evLater_iff_evLT h b).mpr hc)
          intro hrb
          exact hstep (evLT_of_not_evLT_of_evLT hnb hrb)
      · exact ih (if evLater h b then b else h) e
          (List.mem_cons.mpr (Or.inr hmem2))

theorem latestEvent_mem {evs : List TrackingDetail} {m : TrackingDetail}
    (h : latestEvent evs = some m) : m ∈ evs := by
  cases evs with
  | nil => cases h
  | cons a t =>
    simp only [latestEvent, Option.some.injEq] at h
    exact h ▸ foldl_latest_mem t a

theorem latestEvent_max {evs : List TrackingDetail} {m : TrackingDetail}
    (h : latestEvent evs = some m) : ∀ e ∈ evs, ¬ evLT m e := by
  cases evs with
  | nil => cases h
  | cons a t =>
    intro e he
    simp only [latestEvent, Option.some.injEq] at h
    exact h ▸ foldl_latest_max t a e he

theorem lookupKV_insertKV_self {α : Type} (k : String) (v : α)
    (l : List (String × α)) : lookupKV k (insertKV k v l) = some v := by
  induction l with
  | nil => simp [insertKV, lookupKV]
  | cons p t ih =>
    obtain ⟨k1, v1⟩ := p
    by_cases hk : k1 = k
    · simp [insertKV, lookupKV, hk]
    · simp [insertKV, lookupKV, hk, ih]

theorem lookupKV_insertKV_ne {α : Type} (k k2 : String) (v : α)
    (l : List (String × α)) (hne : k2 ≠ k) :
    lookupKV k2 (insertKV k v l) = lookupKV k2 l := by
  have hkk2 : k ≠ k2 := Ne.symm hne
  induction l with
  | nil => simp [insertKV, lookupKV, hkk2]
  | cons p t ih =>
    obtain ⟨k1, v1⟩ := p
    by_cases hk : k1 = k
    · simp [insertKV, lookupKV, hk, hkk2]
    · simp only [insertKV, lookupKV, if_neg hk]
      by_cases hk2 : k1 = k2
      · simp [lookupKV, hk2]
      · simp [lookupKV, hk2, ih]

theorem decodeTrackingDetail_encode (td : TrackingDetail) :
    decodeTrackingDetail (encodeTrackingDetail td) = some td := by
  cases td
  rfl

theorem decodeRecipient_encode (r : Recipient) :
    decodeRecipient (encodeRecipient r) = some r := by
  cases r
  rfl

theorem decodeLocation_encode (l : Location) :
    decodeLocation (encodeLocation l) = some l := by
  cases l
  rfl

theorem decodeTDList_encode (l : List TrackingDetail) :
    decodeTDList (l.map encodeTrackingDetail) = some l := by
  induction l with
  | nil => rfl
  | cons a t ih =>
    simp [decodeTDList, decodeTrackingDetail_encode, ih]

/-! Claim theorems. -/

/-- Claim C1, evidence of the divergence: at a concrete miss with an empty
base table the Assembler reports NotFound, and with a base-read
connectivity failure it reports TransientError, yet in both cases `get`
returns the zero record with a nil error: the source binds the Assembler
error to the blank identifier, so no error kind reaches the caller. -/
theorem get_discards_assembler_error_at_input :
    (getPackageDetailsInDB dbEmptyNF "PKG1").2.1 = some DBErr.notFound ∧
    (Logistics.get cacheEmpty dbEmptyNF "PKG1" 0).1 = Except.ok PackageDetails.zero ∧
    (getPackageDetailsInDB dbFailBase "PKG1").2.1 = some DBErr.transient ∧
    (Logistics.get cacheEmpty dbFailBase "PKG1" 0).1 = Except.ok PackageDetails.zero :=
  ⟨rfl, rfl, rfl, rfl⟩

/-- Claim C2, evidence of the divergence: on a tracking number absent from
the base table the Assembler does return NotFound, but after the lookup the
cache holds the serialized zero record under that key, because the miss
path writes the cache regardless of the discarded Assembler error. -/
theorem cache_populated_on_notFound :
    (getPackageDetailsInDB dbEmptyNF "PKG1").2.1 = some DBErr.notFound ∧
    lookupKV "PKG1" ((Logistics.get cacheEmpty dbEmptyNF "PKG1" 0).2.1).entries =
      some (encodePackageDetails PackageDetails.zero) :=
  ⟨rfl, rfl⟩

/-- Claim C3: whenever all four reads resolve (healthy connections, base row
present, recipient present, events nonempty with the latest event's
location present), the Assembler succeeds and the returned record's
CurrentLocation is the location referenced by the tracking event that is
maximal in the (date, time) order among all events of that number. -/
theorem getPackageDetailsInDB_currentLocation (db : DB) (sno st ed : String)
    (rc : Recipient) (td : TrackingDetail) (loc : Location)
    (hb : db.failBase = false) (he : db.failEvents = false)
    (hr : db.failRecipient = false) (hl : db.failLocation = false)
    (hpkg : db.packages sno = some (st, ed))
    (hrec : db.recipients sno = some rc)
    (hlat : latestEvent (db.trackingDetails sno) = some td)
    (hloc : db.locations td.LocationID = some loc) :
    (getPackageDetailsInDB db sno).2.1 = none ∧
    (getPackageDetailsInDB db sno).1.CurrentLocation = loc ∧
    td ∈ db.trackingDetails sno ∧
    ∀ e ∈ db.trackingDetails sno, ¬ evLT td e := by
  refine ⟨?_, ?_, latestEvent_mem hlat, latestEvent_max hlat⟩ <;>
    simp [getPackageDetailsInDB, hb, he, hr, hl, hpkg, hrec, hlat, hloc]

/-- Claim C3 witness at a concrete store with two events for number A,
whose later event (date 11, time 2) references location 7. -/
theorem getPackageDetailsInDB_currentLocation_witness :
    (getPackageDetailsInDB dbGood "A").2.1 = none ∧
    (getPackageDetailsInDB dbGood "A").1.CurrentLocation =
      ⟨7, "Hub", "Taipei", "2 Dock Rd"⟩ ∧
    (⟨2, 11, 2, "arrived", 7⟩ : TrackingDetail) ∈ dbGood.trackingDetails "A" ∧
    ∀ e ∈ dbGood.trackingDetails "A",
      ¬ evLT (⟨2, 11, 2, "arrived", 7⟩ : TrackingDetail) e :=
  getPackageDetailsInDB_currentLocation dbGood "A" "in_transit" "2024-06-01"
    ⟨9, "Ann", "1 Main St", "555"⟩ ⟨2, 11, 2, "arrived", 7⟩
    ⟨7, "Hub", "Taipei", "2 Dock Rd"⟩ rfl rfl rfl rfl rfl rfl rfl rfl

/-- Claim C4: the Assembler issues its reads in the fixed order base row,
tracking events, recipient, latest-event location; it stops at the first
read that fails; absence of the base row or of the recipient row is
NotFound; a connectivity failure at any read is TransientError; every run's
read trace is one of the four in-order prefixes and repeats no read (no
retry), and a successful run performs exactly the four reads. -/
theorem getPackageDetailsInDB_read_protocol (db : DB) (sno : String) :
    (db.failBase = true →
      (getPackageDetailsInDB db sno).2 =
        (some DBErr.transient, [ReadOp.base])) ∧
    (db.failBase = false → db.packages sno = none →
      (getPackageDetailsInDB db sno).2 =
        (some DBErr.notFound, [ReadOp.base])) ∧
    (db.failBase = false → (db.packages sno).isSome = true →
      db.failEvents = true →
      (getPackageDetailsInDB db sno).2 =
        (some DBErr.transient, [ReadOp.base, ReadOp.events])) ∧
    (db.failBase = false → (db.packages sno).isSome = true →
      db.failEvents = false → db.failRecipient = true →
      (getPackageDetailsInDB db sno).2 =
        (some DBErr.transient,
          [ReadOp.base, ReadOp.events, ReadOp.recipientRead])) ∧
    (db.failBase = false → (db.packages sno).isSome = true →
      db.failEvents = false → db.failRecipient = false →
      db.recipients sno = none →
      (getPackageDetailsInDB db sno).2 =
        (some DBErr.notFound,
          [ReadOp.base, ReadOp.events, ReadOp.recipientRead])) ∧
    (db.failBase = false → (db.packages sno).isSome = true →
      db.failEvents = false → db.failRecipient = false →
      (db.recipients sno).isSome = true → db.failLocation = true →
      (getPackageDetailsInDB db sno).2 =
        (some DBErr.transient,
          [ReadOp.base, ReadOp.events, ReadOp.recipientRead,
            ReadOp.location])) ∧
    ((getPackageDetailsInDB db sno).2.1 = none →
      (getPackageDetailsInDB db sno).2.2 =
        [ReadOp.base, ReadOp.events, ReadOp.recipientRead,
          ReadOp.location]) ∧
    ((getPackageDetailsInDB db sno).2.2).Nodup ∧
    ((getPackageDetailsInDB db sno).2.2 = [ReadOp.base] ∨
      (getPackageDetailsInDB db sno).2.2 = [ReadOp.base, ReadOp.events] ∨
      (getPackageDetailsInDB db sno).2.2 =
        [ReadOp.base, ReadOp.events, ReadOp.recipientRead] ∨
      (getPackageDetailsInDB db sno).2.2 =
        [ReadOp.base, ReadOp.events, ReadOp.recipientRead,
          ReadOp.location]) := by
  cases hb : db.failBase with
  | true => simp [getPackageDetailsInDB, hb]
  | false =>
    cases hp : db.packages sno with
    | none => simp [getPackageDetailsInDB, hb, hp]
    | some base =>
      obtain ⟨st, ed⟩ := base
      cases he : db.failEvents with
      | true => simp [getPackageDetailsInDB, hb, hp, he]
      | false =>
        cases hr : db.failRecipient with
        | true => simp [getPackageDetailsInDB, hb, hp, he, hr]
        | false =>
          cases hrec : db.recipients sno with
          | none => simp [getPackageDetailsInDB, hb, hp, he, hr, hrec]
          | some rc =>
            cases hl : db.failLocation with
            | true => simp [getPackageDetailsInDB, hb, hp, he, hr, hrec, hl]
            | false =>
              cases hle : latestEvent (db.trackingDetails sno) with
              | none =>
                simp [getPackageDetailsInDB, hb, hp, he, hr, hrec, hl, hle]
              | some td =>
                cases hlo : db.locations td.LocationID with
                | none =>
                  simp [getPackageDetailsInDB, hb, hp, he, hr, hrec, hl,
                    hle, hlo]
                | some loc =>
                  simp [getPackageDetailsInDB, hb, hp, he, hr, hrec, hl,
                    hle, hlo]

/-- Claim C4 witness: at a store whose base read fails, the run is a
transient error whose trace is the single base read. -/
theorem getPackageDetailsInDB_read_protocol_witness :
    (getPackageDetailsInDB dbFailBase "A").2 =
      (some DBErr.transient, [ReadOp.base]) :=
  (getPackageDetailsInDB_read_protocol dbFailBase "A").1 rfl

/-- Claim C5: when the cache read fails with an infrastructure error, `get`
returns that cache error; when the cache hits but the payload does not
deserialize, `get` returns the serialization error; in both cases the
database is not invoked and the cache state is unchanged. -/
theorem get_fail_fast (c : CacheState) (db : DB) (sno : String) (now : Int) :
    (∀ e : CacheErr, hget c now sno = Except.error e →
      Logistics.get c db sno now = (Except.error (GetErr.cacheFailure e), c, false)) ∧
    (∀ v : JValue, hget c now sno = Except.ok (some v) →
      decodePackageDetails v = none →
      Logistics.get c db sno now =
        (Except.error GetErr.serializationFailure, c, false)) := by
  constructor
  · intro e h
    simp [Logistics.get, h]
  · intro v h hv
    simp [Logistics.get, h, hv]

/-- Claim C5 witness: a failing cache read surfaces the connection error,
and a corrupt payload under key A surfaces the serialization error; neither
run touches the database. -/
theorem get_fail_fast_witness :
    Logistics.get cacheReadFail dbEmptyNF "A" 0 =
      (Except.error (GetErr.cacheFailure CacheErr.connection),
        cacheReadFail, false) ∧
    Logistics.get cacheCorrupt dbEmptyNF "A" 0 =
      (Except.error GetErr.serializationFailure, cacheCorrupt, false) :=
  ⟨(get_fail_fast cacheReadFail dbEmptyNF "A" 0).1 CacheErr.connection rfl,
    (get_fail_fast cacheCorrupt dbEmptyNF "A" 0).2 JValue.jnull rfl rfl⟩

/-- Claim C6: the duration the source hands to Expire, time.Hour*2/60 under
Go duration arithmetic, is exactly two minutes and is not two hours. -/
theorem cacheExpiry_two_minutes :
    cacheExpiryDuration = 2 * timeMinute ∧
    cacheExpiryDuration = 120 * timeSecond ∧
    cacheExpiryDuration ≠ 2 * timeHour := by
  refine ⟨?_, ?_, ?_⟩ <;> decide

/-- Claim C7: a cache write for key k1 applies the expiry to the whole
logistics_cache structure: afterwards k1 holds the new record, any other
key k2 still holds its old value, and the single structure-wide expiry
instant is reset to now plus the full TTL, so the remaining lifetime of
k2's entry is refreshed along with k1's; no per-entry expiry exists in the
state at all. -/
theorem setLogisticsInfoInCache_shared_fate (c : CacheState) (now : Int)
    (k1 k2 : String) (v : JValue) (pd : PackageDetails)
    (hw : c.writeFails = false) (hne : k2 ≠ k1)
    (hv : lookupKV k2 c.entries = some v) :
    lookupKV k1 ((setLogisticsInfoInCache c now k1 pd).1).entries =
      some (encodePackageDetails pd) ∧
    lookupKV k2 ((setLogisticsInfoInCache c now k1 pd).1).entries = some v ∧
    ((setLogisticsInfoInCache c now k1 pd).1).expiresAt =
      some (now + cacheExpiryDuration) := by
  refine ⟨?_, ?_, ?_⟩ <;>
    simp [setLogisticsInfoInCache, hw, lookupKV_insertKV_self,
      lookupKV_insertKV_ne _ _ _ _ hne, hv]

/-- Claim C7 witness: writing key A into a cache already holding key B
replaces the structure-wide expiry (previously 5) with the full TTL from
now = 100 and leaves B's value in place. -/
theorem setLogisticsInfoInCache_shared_fate_witness :
    lookupKV "A"
        ((setLogisticsInfoInCache cacheWithB 100 "A"
          PackageDetails.zero).1).entries =
      some (encodePackageDetails PackageDetails.zero) ∧
    lookupKV "B"
        ((setLogisticsInfoInCache cacheWithB 100 "A"
          PackageDetails.zero).1).entries = some (JValue.jstr "x") ∧
    ((setLogisticsInfoInCache cacheWithB 100 "A"
        PackageDetails.zero).1).expiresAt =
      some (100 + cacheExpiryDuration) :=
  setLogisticsInfoInCache_shared_fate cacheWithB 100 "A" "B"
    (JValue.jstr "x") PackageDetails.zero rfl (by decide) rfl

/-- Claim C8: a request with an empty tracking number returns the 404
envelope at once: the cache state is untouched, no Cache Store operation
runs, and the database is not invoked. -/
theorem queryLogisticsHandler_empty_sno (c : CacheState) (db : DB)
    (now : Int) :
    queryLogisticsHandler c db "" now =
      (HandlerResp.notFoundResp, c, false, false) := by
  simp [queryLogisticsHandler]

/-- Claim C9: serializing any PackageDetails to the cache wire format and
deserializing it as the hit path does yields the original record in every
field. -/
theorem cache_wire_round_trip (pd : PackageDetails) :
    decodePackageDetails (encodePackageDetails pd) = some pd := by
  obtain ⟨s, t, e, ds, rc, loc⟩ := pd
  simp [encodePackageDetails, decodePackageDetails, lookupKV, JValue.asStr,
    decodeTDList_encode, decodeRecipient_encode, decodeLocation_encode]

/-- Claim C10 counterexample: with a base row present but no recipient row,
the assembly fails (NotFound) yet `get` returns success carrying the
partially assembled record, which is not the zero-value record -- its Sno
field is already filled -- so the claim that the caller receives a
zero-value record on every failed assembly is false. -/
theorem get_miss_partial_record_not_zero :
    (getPackageDetailsInDB dbNoRecipient "A").2.1 = some DBErr.notFound ∧
    (Logistics.get cacheEmpty dbNoRecipient "A" 0).1 =
      Except.ok (getPackageDetailsInDB dbNoRecipient "A").1 ∧
    (getPackageDetailsInDB dbNoRecipient "A").1 ≠ PackageDetails.zero := by
  refine ⟨rfl, rfl, ?_⟩
  decide

/-- Claim C10 (amended): on every cache-miss lookup, `get` returns a nil
error unconditionally and hands the caller whatever record the assembler
produced -- the partially assembled record on failure, zero-valued exactly
when the first read is the one that failed -- so no database failure is
observable through the miss path. -/
theorem get_miss_returns_ok (c : CacheState) (db : DB) (sno : String)
    (now : Int) (h : hget c now sno = Except.ok none) :
    (Logistics.get c db sno now).1 = Except.ok (getPackageDetailsInDB db sno).1 ∧
    (Logistics.get c db sno now).2.2 = true := by
  simp [Logistics.get, h]

/-- Claim C10 witness: on an empty cache and a store lacking the recipient
row, the lookup is a miss, invokes the database, and still returns ok. -/
theorem get_miss_returns_ok_witness :
    (Logistics.get cacheEmpty dbNoRecipient "A" 0).1 =
      Except.ok (getPackageDetailsInDB dbNoRecipient "A").1 ∧
    (Logistics.get cacheEmpty dbNoRecipient "A" 0).2.2 = true :=
  get_miss_returns_ok cacheEmpty dbNoRecipient "A" 0 rfl
